import Mathlib

/-!
Verification of the BrowserStack report generator
(`tools/browserstack-report/generate-browserstack-report.ts`).

The TypeScript source is shallowly embedded below.  JSON values are modelled
by the inductive `JVal` (JS `undefined` is modelled as `Option.none` wherever
a value can be absent, JS `null` as `JVal.nul`).  JS numbers are modelled as
rationals (`ℚ`) or `Int`/`Nat` where the source only ever uses integral
values; `NaN`/`Infinity` are not representable in this model and the one
place the source tests `Number.isFinite` on a config value is noted in a
comment at that definition.  Date parsing (`new Date(s).getTime()`) is kept
abstract as a parameter `parse : String → Option ℚ` (`none` models an
unparseable date, i.e. a `NaN` timestamp).
-/

namespace BStackReport

/-- Model of a JSON/JS value.  `nul` is JS `null`; absence (`undefined`) is
modelled by `Option JVal` at use sites. -/
inductive JVal : Type where
  | nul : JVal
  | str : String → JVal
  | num : ℚ → JVal
  | boolean : Bool → JVal
  | arr : List JVal → JVal
  | obj : List (String × JVal) → JVal

/-- Rows (`Record<string, unknown>`) are modelled as association lists in
object-literal key order. -/
abbrev JRow := List (String × JVal)

/-- First-match association-list lookup, i.e. JS property access on an object
with distinct keys. -/
def lookupField : List (String × JVal) → String → Option JVal
  | [], _ => none
  | (k, v) :: rest, key => if k = key then some v else lookupField rest key

/-- JS property access `v[key]` (returns `undefined` unless `v` is an object
that has the property). -/
def jget (v : JVal) (key : String) : Option JVal :=
  match v with
  | .obj fields => lookupField fields key
  | _ => none

/- JS `String(v)` for the value shapes the report generator manipulates.
Array/object stringification is approximate (never relied upon by a claim:
the cells reaching it in the claims are strings); what matters is that it is
empty exactly for the empty string. -/
mutual

def jstr : JVal → String
  | .nul => "null"
  | .str s => s
  | .num q => toString q
  | .boolean b => if b then "true" else "false"
  | .arr items => String.intercalate (",") (jstrList items)
  | .obj _ => "[object Object]"

def jstrList : List JVal → List String
  | [] => []
  | v :: vs => jstr v :: jstrList vs

end

def dotSep : String := "."
def commaSpace : String := ", "

/-- Source `getNested` (lines 343-350): dotted-path lookup; any step through
a missing value, `null`, or a non-object yields `undefined`. -/
def getNested (input : Option JVal) (key : String) : Option JVal :=
  (key.splitOn dotSep).foldl
    (fun acc part =>
      match acc with
      | some v => jget v part
      | none => none)
    input

/-- Source `safeJoin` (lines 335-341): drop null-ish entries, stringify,
trim, drop empties, join. -/
def safeJoin (values : List JVal) (delimiter : String) : String :=
  String.intercalate delimiter
    (((values.map jstr).map String.trim).filter (fun s => s.length ≠ 0))

/- ### Substring matching (JS `String.prototype.includes`) -/

/-- Does `needle` occur at the head of the character list? -/
def leadEq : List Char → List Char → Bool
  | _, [] => true
  | [], _ :: _ => false
  | a :: as, b :: bs => a == b && leadEq as bs

/-- Does `needle` occur anywhere in the character list? -/
def hasSub : List Char → List Char → Bool
  | [], needle => needle.isEmpty
  | c :: t, needle => leadEq (c :: t) needle || hasSub t needle

/-- JS `s.includes(pat)`. -/
def jsIncludes (s pat : String) : Bool := hasSub s.data pat.data

/- ### Configuration model (source lines 8-63, resolved by lines 181-234)

`Raw…` structures model `Partial<ReportConfig>` (every field may be absent);
the plain structures model the resolved configuration.  Note the resolved
`columns` section keeps `Option` fields because `resolveConfig` supplies no
defaults for the per-section column specs (source lines 226-232). -/

inductive OutputFormat : Type where
  | csv | xlsx | md | json
deriving DecidableEq

structure ColumnConfig where
  key : String
  header : Option String
  defaultVal : Option JVal

structure Credentials where
  usernameEnv : String
  accessKeyEnv : String
deriving DecidableEq

structure DiscoverRecentBuilds where
  enabled : Bool
  maxBuildsPerSource : Int
  testReportingProjectIds : List Int
deriving DecidableEq

structure Inputs where
  testReportingBuildIds : List String
  appAutomateBuildIds : List String
  appCustomIds : List String
  discoverRecentBuilds : DiscoverRecentBuilds
deriving DecidableEq

structure TestReportingSection where
  enabled : Bool
  fetchAllPages : Bool
  includeHooks : Bool
  testRunQuery : List (String × String)
deriving DecidableEq

structure AppAutomateSection where
  enabled : Bool
  sessionLimit : Int
  includeSessionDetails : Bool
  sessionStatusFilter : String
  appListLimit : Int
deriving DecidableEq

structure OutputsSection where
  directory : String
  baseName : String
  formats : List OutputFormat
  markdownMaxRows : Int
deriving DecidableEq

/-- Resolved filter block.  `days` is `number | null` after resolution
(`?? null`), modelled as `Option ℚ` with `none` = `null`. -/
structure FiltersSection where
  days : Option ℚ
  projects : List String
  teams : List String
  people : List String
  caseSensitive : Bool
  applyDaysToApps : Bool
deriving DecidableEq

structure ColumnsSection where
  overview : Option (List ColumnConfig)
  builds : Option (List ColumnConfig)
  tests : Option (List ColumnConfig)
  sessions : Option (List ColumnConfig)
  apps : Option (List ColumnConfig)

structure ReportConfig where
  credentials : Credentials
  inputs : Inputs
  testReporting : TestReportingSection
  appAutomate : AppAutomateSection
  outputs : OutputsSection
  filters : FiltersSection
  columns : ColumnsSection

structure RawCredentials where
  usernameEnv : Option String
  accessKeyEnv : Option String

structure RawDiscoverRecentBuilds where
  enabled : Option Bool
  maxBuildsPerSource : Option Int
  testReportingProjectIds : Option (List Int)

structure RawInputs where
  testReportingBuildIds : Option (List String)
  appAutomateBuildIds : Option (List String)
  appCustomIds : Option (List String)
  discoverRecentBuilds : Option RawDiscoverRecentBuilds

structure RawTestReporting where
  enabled : Option Bool
  fetchAllPages : Option Bool
  includeHooks : Option Bool
  testRunQuery : Option (List (String × String))

structure RawAppAutomate where
  enabled : Option Bool
  sessionLimit : Option Int
  includeSessionDetails : Option Bool
  sessionStatusFilter : Option String
  appListLimit : Option Int

structure RawOutputs where
  directory : Option String
  baseName : Option String
  formats : Option (List OutputFormat)
  markdownMaxRows : Option Int

/-- Raw filter block: `days?: number | null` distinguishes absent
(outer `none`) from explicit `null` (`some none`). -/
structure RawFilters where
  days : Option (Option ℚ)
  projects : Option (List String)
  teams : Option (List String)
  people : Option (List String)
  caseSensitive : Option Bool
  applyDaysToApps : Option Bool

structure RawColumns where
  overview : Option (List ColumnConfig)
  builds : Option (List ColumnConfig)
  tests : Option (List ColumnConfig)
  sessions : Option (List ColumnConfig)
  apps : Option (List ColumnConfig)

structure RawReportConfig where
  credentials : Option RawCredentials
  inputs : Option RawInputs
  testReporting : Option RawTestReporting
  appAutomate : Option RawAppAutomate
  outputs : Option RawOutputs
  filters : Option RawFilters
  columns : Option RawColumns

def defaultUsernameEnv : String := "BROWSERSTACK_USERNAME"
def defaultAccessKeyEnv : String := "BROWSERSTACK_ACCESS_KEY"
def defaultOutputDirectory : String := "reports/browserstack-report"
def defaultBaseName : String := "browserstack-report"

/-- Source `resolveConfig` (lines 181-234), field by field.  `x ?? d` is
`Option.getD`; `raw.a?.b` is `Option.bind`; note that the five `columns`
fields are passed through with no default. -/
def resolveConfig (raw : RawReportConfig) : ReportConfig :=
  { credentials :=
      { usernameEnv := (raw.credentials.bind (·.usernameEnv)).getD defaultUsernameEnv
        accessKeyEnv := (raw.credentials.bind (·.accessKeyEnv)).getD defaultAccessKeyEnv }
    inputs :=
      { testReportingBuildIds := (raw.inputs.bind (·.testReportingBuildIds)).getD []
        appAutomateBuildIds := (raw.inputs.bind (·.appAutomateBuildIds)).getD []
        appCustomIds := (raw.inputs.bind (·.appCustomIds)).getD []
        discoverRecentBuilds :=
          { enabled :=
              ((raw.inputs.bind (·.discoverRecentBuilds)).bind (·.enabled)).getD true
            maxBuildsPerSource :=
              ((raw.inputs.bind (·.discoverRecentBuilds)).bind (·.maxBuildsPerSource)).getD 20
            testReportingProjectIds :=
              ((raw.inputs.bind (·.discoverRecentBuilds)).bind
                (·.testReportingProjectIds)).getD [] } }
    testReporting :=
      { enabled := (raw.testReporting.bind (·.enabled)).getD true
        fetchAllPages := (raw.testReporting.bind (·.fetchAllPages)).getD true
        includeHooks := (raw.testReporting.bind (·.includeHooks)).getD false
        testRunQuery := (raw.testReporting.bind (·.testRunQuery)).getD [] }
    appAutomate :=
      { enabled := (raw.appAutomate.bind (·.enabled)).getD true
        sessionLimit := (raw.appAutomate.bind (·.sessionLimit)).getD 25
        includeSessionDetails := (raw.appAutomate.bind (·.includeSessionDetails)).getD true
        sessionStatusFilter := (raw.appAutomate.bind (·.sessionStatusFilter)).getD ("")
        appListLimit := (raw.appAutomate.bind (·.appListLimit)).getD 10 }
    outputs :=
      { directory := (raw.outputs.bind (·.directory)).getD defaultOutputDirectory
        baseName := (raw.outputs.bind (·.baseName)).getD defaultBaseName
        formats := (raw.outputs.bind (·.formats)).getD
          [OutputFormat.csv, OutputFormat.xlsx, OutputFormat.md, OutputFormat.json]
        markdownMaxRows := (raw.outputs.bind (·.markdownMaxRows)).getD 0 }
    filters :=
      { days := (raw.filters.bind (·.days)).getD none
        projects := (raw.filters.bind (·.projects)).getD []
        teams := (raw.filters.bind (·.teams)).getD []
        people := (raw.filters.bind (·.people)).getD []
        caseSensitive := (raw.filters.bind (·.caseSensitive)).getD false
        applyDaysToApps := (raw.filters.bind (·.applyDaysToApps)).getD false }
    columns :=
      { overview := raw.columns.bind (·.overview)
        builds := raw.columns.bind (·.builds)
        tests := raw.columns.bind (·.tests)
        sessions := raw.columns.bind (·.sessions)
        apps := raw.columns.bind (·.apps) } }

/-- Every resolved configuration is in particular a partial configuration
document (all fields present); this is the coercion used to state
idempotence of `resolveConfig`. -/
def rawOfResolved (c : ReportConfig) : RawReportConfig :=
  { credentials := some
      { usernameEnv := some c.credentials.usernameEnv
        accessKeyEnv := some c.credentials.accessKeyEnv }
    inputs := some
      { testReportingBuildIds := some c.inputs.testReportingBuildIds
        appAutomateBuildIds := some c.inputs.appAutomateBuildIds
        appCustomIds := some c.inputs.appCustomIds
        discoverRecentBuilds := some
          { enabled := some c.inputs.discoverRecentBuilds.enabled
            maxBuildsPerSource := some c.inputs.discoverRecentBuilds.maxBuildsPerSource
            testReportingProjectIds :=
              some c.inputs.discoverRecentBuilds.testReportingProjectIds } }
    testReporting := some
      { enabled := some c.testReporting.enabled
        fetchAllPages := some c.testReporting.fetchAllPages
        includeHooks := some c.testReporting.includeHooks
        testRunQuery := some c.testReporting.testRunQuery }
    appAutomate := some
      { enabled := some c.appAutomate.enabled
        sessionLimit := some c.appAutomate.sessionLimit
        includeSessionDetails := some c.appAutomate.includeSessionDetails
        sessionStatusFilter := some c.appAutomate.sessionStatusFilter
        appListLimit := some c.appAutomate.appListLimit }
    outputs := some
      { directory := some c.outputs.directory
        baseName := some c.outputs.baseName
        formats := some c.outputs.formats
        markdownMaxRows := some c.outputs.markdownMaxRows }
    filters := some
      { days := some c.filters.days
        projects := some c.filters.projects
        teams := some c.filters.teams
        people := some c.filters.people
        caseSensitive := some c.filters.caseSensitive
        applyDaysToApps := some c.filters.applyDaysToApps }
    columns := some
      { overview := c.columns.overview
        builds := c.columns.builds
        tests := c.columns.tests
        sessions := c.columns.sessions
        apps := c.columns.apps } }

/-- The empty partial configuration document. -/
def emptyRaw : RawReportConfig :=
  { credentials := none, inputs := none, testReporting := none, appAutomate := none
    outputs := none, filters := none, columns := none }

/- ### Validation (source lines 236-295) -/

def placeholderMarker1 : String := "replace-with"
def placeholderMarker2 : String := "optional-"
def placeholderMarker3 : String := "your-"

/-- Source `isPlaceholderValue` (lines 236-244). -/
def isPlaceholderValue (value : String) : Bool :=
  let normalized := value.trim.toLower
  normalized.length == 0 ||
    jsIncludes normalized placeholderMarker1 ||
    jsIncludes normalized placeholderMarker2 ||
    jsIncludes normalized placeholderMarker3

def msgTrEmpty : String :=
  "testReporting.enabled is true but inputs.testReportingBuildIds is empty."
def msgAaEmpty : String :=
  "appAutomate.enabled is true but inputs.appAutomateBuildIds is empty."
def msgTrPlaceholder (invalid : List String) : String :=
  "testReportingBuildIds contains placeholder values: " ++
    String.intercalate commaSpace invalid
def msgAaPlaceholder (invalid : List String) : String :=
  "appAutomateBuildIds contains placeholder values: " ++
    String.intercalate commaSpace invalid

/-- The two distinct throw sites of `validateConfig`: the aggregated
`Invalid report configuration.` error carrying the collected violation
lines (source lines 278-286), and the separate `Invalid filters.days.`
error (source lines 288-295). -/
inductive ConfigError : Type where
  | invalidConfig (errors : List String)
  | invalidDays
deriving DecidableEq

/-- The `errors` array accumulated by `validateConfig` before its first
throw (source lines 247-276), in push order. -/
def validationErrors (config : ReportConfig) : List String :=
  let canDiscover := config.inputs.discoverRecentBuilds.enabled
  (if config.testReporting.enabled then
      (if config.inputs.testReportingBuildIds.length == 0 && !canDiscover then
        [msgTrEmpty]
      else []) ++
      (let invalid := config.inputs.testReportingBuildIds.filter isPlaceholderValue
        if invalid.length > 0 then [msgTrPlaceholder invalid] else [])
    else []) ++
  (if config.appAutomate.enabled then
      (if config.inputs.appAutomateBuildIds.length == 0 && !canDiscover then
        [msgAaEmpty]
      else []) ++
      (let invalid := config.inputs.appAutomateBuildIds.filter isPlaceholderValue
        if invalid.length > 0 then [msgAaPlaceholder invalid] else [])
    else [])

/-- The day-window condition of the second throw (source lines 288-292):
`days !== undefined && days !== null && (!Number.isFinite(days) || days <= 0)`.
After resolution `days` is never `undefined`, and in the rational model every
number is finite, so the condition is `some d` with `d ≤ 0`. -/
def daysCheck : Option ℚ → Bool
  | none => false
  | some d => decide (d ≤ 0)

/-- Source `validateConfig` (lines 246-295): collect the ID/source violation
messages, throw them together if any; only then check the day window and
throw separately. -/
def validateConfig (config : ReportConfig) : Except ConfigError Unit :=
  let errors := validationErrors config
  if errors.length > 0 then
    Except.error (ConfigError.invalidConfig errors)
  else if daysCheck config.filters.days then
    Except.error ConfigError.invalidDays
  else
    Except.ok ()

/-- Claim-side restatement of the first violation kind: an enabled
test-reporting source with no explicit IDs while discovery is disabled. -/
def trIdsMissing (c : ReportConfig) : Bool :=
  c.testReporting.enabled && c.inputs.testReportingBuildIds.length == 0 &&
    !c.inputs.discoverRecentBuilds.enabled

/-- Same for the device-automation source. -/
def aaIdsMissing (c : ReportConfig) : Bool :=
  c.appAutomate.enabled && c.inputs.appAutomateBuildIds.length == 0 &&
    !c.inputs.discoverRecentBuilds.enabled

/-- Claim-side restatement of the second violation kind: the supplied
test-reporting IDs that match the placeholder pattern. -/
def trPlaceholders (c : ReportConfig) : List String :=
  if c.testReporting.enabled then
    c.inputs.testReportingBuildIds.filter isPlaceholderValue
  else []

/-- Same for the device-automation source. -/
def aaPlaceholders (c : ReportConfig) : List String :=
  if c.appAutomate.enabled then
    c.inputs.appAutomateBuildIds.filter isPlaceholderValue
  else []

/- ### Time-window predicate (source `isWithinDays`, lines 376-392) -/

/-- A cell passes the source's pre-parse filter
`value !== null && value !== undefined && String(value) !== ""`. -/
def usableCell : Option JVal → Bool
  | none => false
  | some JVal.nul => false
  | some v => !(jstr v == "")

/-- The finite timestamps the source extracts from a row (lines 383-387):
read each candidate key, keep non-null non-empty cells, parse them with
`new Date(String(v)).getTime()` (the abstract `parse`; `none` is `NaN`) and
keep the finite results. -/
def timestampsOf (parse : String → Option ℚ) (row : JRow) (dateKeys : List String) :
    List ℚ :=
  ((dateKeys.map (fun key => lookupField row key)).filter usableCell).filterMap
    (fun cell => cell.bind (fun v => parse (jstr v)))

/-- Source `isWithinDays` (lines 376-392).  `!days` is JS-falsy for `null`,
`undefined` and `0` (`NaN` is unrepresentable here); milliseconds:
`days * 24 * 60 * 60 * 1000 = days * 86400000`. -/
def isWithinDays (parse : String → Option ℚ) (now : ℚ) (row : JRow)
    (dateKeys : List String) (days : Option ℚ) : Bool :=
  if days = none ∨ days = some 0 then true
  else
    let cutoff := now - (days.getD 0) * 86400000
    let timestamps := timestampsOf parse row dateKeys
    -- Keep rows that do not carry a timestamp in this schema.
    if timestamps.isEmpty then true
    else timestamps.any (fun t => decide (cutoff ≤ t))

/- ### Hierarchy flattening (source `flattenTestHierarchy`, lines 426-506) -/

/-- A node of the test-run hierarchy
(`display_name?`, `type?`, `details?`, `children?`).  A missing `children`
array and an empty one behave identically in the source (`Array.isArray`
guard), so both are the empty list. -/
inductive HNode : Type where
  | mk (displayName : Option String) (nodeType : Option String)
      (details : Option JVal) (children : List HNode)

def HNode.displayNameOf : HNode → Option String
  | .mk dn _ _ _ => dn

def HNode.detailsOf : HNode → Option JVal
  | .mk _ _ d _ => d

def emptyObj : JVal := JVal.obj []
def emptyStr : JVal := JVal.str ("")
def scopeSep : String := " > "

/-- JS `Array.isArray(v) ? v : []` for an optionally-present property. -/
def asArray : Option JVal → List JVal
  | some (JVal.arr items) => items
  | _ => []

/-- The row literal pushed by `walk` (source lines 463-492), in key order. -/
def mkTestRow (buildId buildName : String) (buildNumber : JVal)
    (rootDetails : JVal) (rootDisplayName : String)
    (nodeType displayName : String) (details : JVal)
    (parentPath : List String) : JRow :=
  let retries := asArray (jget details ("retries"))
  let firstRetry := retries.head?.getD emptyObj
  let logs := (jget firstRetry ("logs")).getD emptyObj
  let failureLogs := asArray (jget logs ("TEST_FAILURE"))
  [("source_build_id", JVal.str buildId),
   ("source_build_name", JVal.str buildName),
   ("source_build_number", buildNumber),
   ("root_scope", JVal.str rootDisplayName),
   ("scope_path", JVal.str (String.intercalate scopeSep parentPath)),
   ("test_type", JVal.str nodeType),
   ("test_name", JVal.str displayName),
   ("test_status", (jget details ("status")).getD emptyStr),
   ("test_duration_ms", (jget details ("duration")).getD emptyStr),
   ("test_tags", JVal.str (safeJoin (asArray (jget details ("tags"))) commaSpace)),
   ("retries_count", JVal.num retries.length),
   ("run_count", (jget details ("run_count")).getD emptyStr),
   ("is_flaky", (jget details ("is_flaky")).getD emptyStr),
   ("is_always_failing", (jget details ("is_always_failing")).getD emptyStr),
   ("is_new_failure", (jget details ("is_new_failure")).getD emptyStr),
   ("is_performance_anomaly", (jget details ("is_performance_anomaly")).getD emptyStr),
   ("is_muted", (jget details ("is_muted")).getD emptyStr),
   ("observability_url", (jget details ("observability_url")).getD emptyStr),
   ("first_failure_log", failureLogs.head?.getD emptyStr),
   ("root_file_path", (jget rootDetails ("file_path")).getD emptyStr),
   ("root_os_name", (getNested (jget rootDetails ("os")) "name").getD emptyStr),
   ("root_os_version", (getNested (jget rootDetails ("os")) "version").getD emptyStr),
   ("root_browser_name", (getNested (jget rootDetails ("browser")) "name").getD emptyStr),
   ("root_browser_version",
     (getNested (jget rootDetails ("browser")) "version").getD emptyStr),
   ("root_device", (jget rootDetails ("device")).getD emptyStr),
   ("finished_at", (jget rootDetails ("finished_at")).getD emptyStr)]

mutual

/-- Source `walk` (lines 442-497): pre-order; the node's own row (when its
type qualifies and its display name is non-empty) precedes its children's
rows, and an empty display name is not added to the path. -/
def walkNode (buildId buildName : String) (buildNumber : JVal)
    (includeHooks : Bool) (rootDetails : JVal) (rootDisplayName : String)
    (n : HNode) (parentPath : List String) : List JRow :=
  match n with
  | .mk dn ty nodeDetails children =>
    let nodeType := ty.getD ("")
    let details := nodeDetails.getD emptyObj
    let displayName := dn.getD ("")
    let nextPath := if displayName = "" then parentPath else parentPath ++ [displayName]
    (if (nodeType == "TEST" || (includeHooks && nodeType == "HOOK")) &&
        !(displayName == "") then
      [mkTestRow buildId buildName buildNumber rootDetails rootDisplayName
        nodeType displayName details parentPath]
    else []) ++
    walkNodes buildId buildName buildNumber includeHooks rootDetails rootDisplayName
      children nextPath

def walkNodes (buildId buildName : String) (buildNumber : JVal)
    (includeHooks : Bool) (rootDetails : JVal) (rootDisplayName : String)
    (l : List HNode) (parentPath : List String) : List JRow :=
  match l with
  | [] => []
  | c :: cs =>
    walkNode buildId buildName buildNumber includeHooks rootDetails rootDisplayName
      c parentPath ++
    walkNodes buildId buildName buildNumber includeHooks rootDetails rootDisplayName
      cs parentPath

end

/-- Source `flattenTestHierarchy` (lines 426-506): walk each root with the
root's own details and display name and an empty path, concatenating rows. -/
def flattenTestHierarchy (buildId buildName : String) (buildNumber : JVal)
    (hierarchy : List HNode) (includeHooks : Bool) : List JRow :=
  (hierarchy.map (fun rootNode =>
    walkNode buildId buildName buildNumber includeHooks
      (rootNode.detailsOf.getD emptyObj) (rootNode.displayNameOf.getD (""))
      rootNode [])).flatten

/- ### Offset/limit session pagination
(source `fetchAppAutomateSessionsForBuild`, lines 672-751)

The remote build is modelled as the total list `all` of its session records
(in listing order): the page at `offset` with page size `limit` is
`(all.drop offset).take limit`.  Per-row construction and the optional
per-session detail enrichment perform no control flow relevant to the
pagination claims, so each page contributes its items unchanged.  The page
size is `lp + 1`, i.e. at least 1 by construction, matching the source's
`Math.max(1, config.appAutomate.sessionLimit)` clamp (see
`fetchAppAutomateSessionsForBuild` below). -/

/-- The request trace of the session-listing loop: one `(offset, response)`
pair per issued page request.  The loop continues exactly while
`response.length === limit` (source line 746) and advances
`offset += limit` (line 747). -/
def sessionPages {α : Type} (all : List α) (lp : Nat) (offset : Nat) :
    List (Nat × List α) :=
  if h : ((all.drop offset).take (lp + 1)).length = lp + 1 then
    (offset, (all.drop offset).take (lp + 1)) ::
      sessionPages all lp (offset + (lp + 1))
  else
    [(offset, (all.drop offset).take (lp + 1))]
termination_by all.length - offset
decreasing_by
  rw [List.length_take, List.length_drop] at h
  omega

/-- Source `fetchAppAutomateSessionsForBuild` (lines 672-751), restricted to
its pagination behaviour: `limit = Math.max(1, sessionLimit)`, offset starts
at 0.  Returns the full request trace; the produced rows are the
concatenation of the responses. -/
def fetchAppAutomateSessionsForBuild {α : Type} (all : List α)
    (sessionLimit : Int) : List (Nat × List α) :=
  sessionPages all ((max 1 sessionLimit).toNat - 1) 0

/-- The offsets at which page requests are issued. -/
def sessionOffsets {α : Type} (all : List α) (sessionLimit : Int) : List Nat :=
  (fetchAppAutomateSessionsForBuild all sessionLimit).map Prod.fst

/-- The session rows accumulated by the loop. -/
def sessionRows {α : Type} (all : List α) (sessionLimit : Int) : List α :=
  ((fetchAppAutomateSessionsForBuild all sessionLimit).map Prod.snd).flatten

/- ### Cursor pagination (source lines 965-1019 and 1045-1133)

A remote listing endpoint is an oracle from the requested cursor (the
`next_page` query value, `""` on the first request) to a payload, or to
`none` for a transport failure (the `catch` branches at source lines
990-992 and 1092-1094 break the traversal).  Record extraction
(`extractObjectsFromUnknownPayload` plus the per-record id projection) is
abstracted as the already-extracted `records` list of each payload. -/

/-- The `pagination` object of a discovery payload. -/
structure PagePagination where
  has_next : Option Bool
  next_page : Option String

/-- A discovery payload: extracted records plus the two places
`getPagination` looks for cursor data. -/
structure DiscPayload (ρ : Type) where
  records : List ρ
  pagination : Option PagePagination
  next_page : Option String

/-- Source `getPagination` (lines 965-971):
`hasNext = Boolean(pagination.has_next)`;
`nextPage = String(pagination.next_page ?? "") || String(payload.next_page ?? "")`
(JS `||` takes the right operand when the left is the empty string). -/
def getPagination {ρ : Type} (p : DiscPayload ρ) : Bool × String :=
  let hasNext := (p.pagination.bind (·.has_next)).getD false
  let fromPagination := (p.pagination.bind (·.next_page)).getD ("")
  let nextPage := if fromPagination = "" then p.next_page.getD ("") else fromPagination
  (hasNext, nextPage)

def LIMITS_maxProjectPages : Nat := 200
def LIMITS_maxBuildPagesPerProject : Nat := 500

/-- The project-discovery loop of `discoverTestReportingProjectIds`
(source lines 983-1015), returning `(requests issued, ids collected)`.

The source counts successful pages upward in `pageCount` and continues only
while `pageCount < LIMITS.maxProjectPages`; here the counter is carried as
`remaining = maxProjectPages - pageCount`, so at entry of an iteration
`remaining = r + 1` and the post-increment guard `pageCount + 1 < cap`
is `r > 0`.  The stop conditions are exactly the source's: transport
failure (`none`), `hasNext` false, empty next cursor, a cursor already in
`seenNextPages`, or the page ceiling. -/
def discProjectLoop {ρ : Type} (oracle : String → Option (DiscPayload ρ)) :
    Nat → String → List String → Nat × List ρ
  | 0, _, _ => (0, [])
  | r + 1, cursor, seen =>
    match oracle cursor with
    | none => (1, [])
    | some payload =>
      let pg := getPagination payload
      let keepFetching :=
        pg.1 && !(pg.2 = "") && !(seen.contains pg.2) && decide (0 < r)
      if keepFetching then
        let rest := discProjectLoop oracle r pg.2 (pg.2 :: seen)
        (rest.1 + 1, payload.records ++ rest.2)
      else
        (1, payload.records)

/-- JS `Array.from(new Set(values.filter(Number.isFinite)))`: first-seen
de-duplication (source `uniqueNumbers`, lines 1025-1027; finiteness is
vacuous in the integer model). -/
def uniqueNumbers (values : List Int) : List Int :=
  go [] values
where
  go (seen : List Int) : List Int → List Int
    | [] => []
    | x :: xs => if seen.contains x then go seen xs else x :: go (x :: seen) xs

/-- Source `discoverTestReportingProjectIds` (lines 973-1019): run the loop
from cursor `""`, empty seen-set and full page budget, then de-duplicate. -/
def discoverTestReportingProjectIds (oracle : String → Option (DiscPayload Int)) :
    Nat × List Int :=
  let r := discProjectLoop oracle LIMITS_maxProjectPages "" []
  (r.1, uniqueNumbers r.2)

/-- The per-project build-listing loop of `discoverTestReportingBuildIds`
(source lines 1083-1125), returning `(requests issued, build ids kept)`.
Same cursor/ceiling handling as the project loop (ceiling
`LIMITS.maxBuildPagesPerProject`, carried as `remaining`), with two
differences from the project loop: page ids are the non-empty extracted id
strings, and the loop additionally stops once
`collectedForProject >= maxBuilds`. -/
def discBuildLoop (oracle : String → Option (DiscPayload String))
    (maxBuilds : Int) :
    Nat → String → List String → Nat → Nat × List String
  | 0, _, _, _ => (0, [])
  | r + 1, cursor, seen, collected =>
    match oracle cursor with
    | none => (1, [])
    | some payload =>
      let pageIds := payload.records.filter (fun v => !(v = ""))
      let collectedForProject := collected + pageIds.length
      let pg := getPagination payload
      let keepFetching :=
        pg.1 && !(pg.2 = "") && !(seen.contains pg.2) &&
          decide ((collectedForProject : Int) < maxBuilds) && decide (0 < r)
      if keepFetching then
        let rest := discBuildLoop oracle maxBuilds r pg.2 (pg.2 :: seen)
          collectedForProject
        (rest.1 + 1, pageIds ++ rest.2)
      else
        (1, pageIds)

/-- The query parameters `discoverTestReportingBuildIds` computes before its
per-project loops (source lines 1049-1053): the per-source build cap and the
date range `from = now - days*86400000 ms` to `now`, with
`days = config.filters?.days ?? 7`.  (The source then interpolates
`from` and `now` into the string `date_range`; the pair of endpoints is kept
un-stringified here.) -/
def discoverBuildParams (config : ReportConfig) (now : ℚ) :
    Int × (ℚ × ℚ) :=
  let maxBuilds := max 1 config.inputs.discoverRecentBuilds.maxBuildsPerSource
  let days := config.filters.days.getD 7
  let «from» := now - days * 86400000
  (maxBuilds, («from», now))

/- ### The per-build test-runs loop (source lines 583-614)

This loop drives pagination of `GET /ext/v1/builds/{id}/testRuns` inside
`fetchTestReportingData`.  Its continuation condition (line 613) is
`fetchAllPages && hasNext && Boolean(nextPage)` — it maintains no
`seenNextPages` set and no page ceiling, so it need not terminate; it is
therefore modelled with explicit fuel, counting the requests issued within
`fuel` iterations (an execution that exhausts any fuel never stops on its
own). -/

/-- One test-runs response: only its `pagination` matters for loop control
(`hasNext = Boolean(pagination?.has_next)`, `nextPage = pagination?.next_page`,
source lines 611-612). -/
structure TRPage where
  pagination : Option PagePagination

/-- Requests issued by the test-runs pagination loop of
`fetchTestReportingData` within `fuel` iterations (the first request is
issued unconditionally with no cursor). -/
def testRunsRequests (oracle : Option String → TRPage) (fetchAllPages : Bool) :
    Nat → Option String → Nat
  | 0, _ => 0
  | fuel + 1, cursor =>
    let resp := oracle cursor
    let hasNext := (resp.pagination.bind (·.has_next)).getD false
    let nextPage := resp.pagination.bind (·.next_page)
    let keepFetching := fetchAllPages && hasNext && !(nextPage.getD ("") = "")
    if keepFetching then
      1 + testRunsRequests oracle fetchAllPages fuel nextPage
    else
      1

/- ### Delimited-text escaping (source `csvEscape`/`toCsv`, lines 1256-1270) -/

/-- A character that forces quoting: the regex class in `/[",\n]/`. -/
def csvSpecial (c : Char) : Bool := c = '"' || c = ',' || c = '\n'

/-- Double every internal quote: `text.replace(/"/g, <two quotes>)`. -/
def doubleQuotes : List Char → List Char
  | [] => []
  | c :: cs => if c = '"' then '"' :: '"' :: doubleQuotes cs else c :: doubleQuotes cs

/-- Source `csvEscape` (lines 1256-1262) on an already-stringified value:
quote-wrap with doubled internal quotes iff the text contains a quote,
the delimiter, or a newline. -/
def csvEscape (value : String) : String :=
  if value.data.any csvSpecial then
    String.mk ('"' :: (doubleQuotes value.data ++ ['"']))
  else
    value

/-- Modelled from the spec: the single-field grammar of a standard
delimited-text reader (RFC-4180 style), used to state the round-trip
property.  A quoted field consumes up to the closing quote, un-doubling
`""`; an unquoted field extends to the next delimiter or newline. -/
def readQuoted : List Char → List Char × List Char
  | [] => ([], [])
  | c :: rest =>
    if c = '"' then
      match rest with
      | '"' :: rest2 =>
        let p := readQuoted rest2
        ('"' :: p.1, p.2)
      | _ => ([], rest)
    else
      let p := readQuoted rest
      (c :: p.1, p.2)

/-- Modelled from the spec: read one field (see `readQuoted`). -/
def readField (cs : List Char) : List Char × List Char :=
  match cs with
  | [] => ([], [])
  | c :: rest =>
    if c = '"' then readQuoted rest
    else ((c :: rest).takeWhile (fun x => !(x = ',' || x = '\n')),
          (c :: rest).dropWhile (fun x => !(x = ',' || x = '\n')))

/- ### Column projection (source `pickColumns`, lines 1210-1227) -/

/-- JS object assignment `o[k] = v`: overwrite in place if the key exists,
else append. -/
def jsSetField (o : JRow) (k : String) (v : JVal) : JRow :=
  if o.any (fun p => p.1 = k) then
    o.map (fun p => if p.1 = k then (k, v) else p)
  else
    o ++ [(k, v)]

/-- Source `pickColumns` (lines 1210-1227): with no spec or an empty spec the
rows pass through unchanged; otherwise each output row is built by assigning
`header ?? key` to the dotted-path lookup of `key`, falling back to
`default ?? ""` when the lookup is absent or null. -/
def pickColumns (rows : List JRow) (columns : Option (List ColumnConfig)) :
    List JRow :=
  match columns with
  | none => rows
  | some cols =>
    if cols.length = 0 then rows
    else
      rows.map (fun row =>
        cols.foldl (fun nextRow column =>
          let header := column.header.getD column.key
          let value := getNested (some (JVal.obj row)) column.key
          let assigned :=
            match value with
            | none => jsNullishDefault column.defaultVal
            | some JVal.nul => jsNullishDefault column.defaultVal
            | some v => v
          jsSetField nextRow header assigned) [])
where
  /-- JS `column.default ?? ""` (both a missing and an explicit-null default
  fall back to the empty string). -/
  jsNullishDefault : Option JVal → JVal
    | none => emptyStr
    | some JVal.nul => emptyStr
    | some v => v

/- ### Spec-side companions for the flattening claim (C2) -/

mutual

/-- Modelled from the spec: the expected `(test name, scope path)` pairs of
hierarchy flattening with hook inclusion off — one pair per TEST-typed node
with a non-empty display name, the scope path being the join of the strict
ancestors' (non-empty) display names. -/
def specRowsNode (path : List String) : HNode → List (String × String)
  | .mk dn ty _ children =>
    let name := dn.getD ("")
    let nextPath := if name = "" then path else path ++ [name]
    (if ty.getD ("") = "TEST" ∧ name ≠ "" then
      [(name, String.intercalate scopeSep path)]
    else []) ++ specRowsNodes nextPath children

def specRowsNodes (path : List String) : List HNode → List (String × String)
  | [] => []
  | c :: cs => specRowsNode path c ++ specRowsNodes path cs

end

/-- The expected pairs over a whole hierarchy (roots walked from the empty
path). -/
def specRows (hierarchy : List HNode) : List (String × String) :=
  (hierarchy.map (specRowsNode [])).flatten

mutual

/-- Number of leaf TEST-typed nodes with a non-empty display name. -/
def leafTestCount : HNode → Nat
  | .mk dn ty _ children =>
    (if children.isEmpty ∧ ty.getD ("") = "TEST" ∧ dn.getD ("") ≠ "" then 1 else 0) +
      leafTestCountList children

def leafTestCountList : List HNode → Nat
  | [] => 0
  | c :: cs => leafTestCount c + leafTestCountList cs

end

mutual

/-- Every TEST-typed node of the tree is a leaf. -/
def allTestLeaves : HNode → Bool
  | .mk _ ty _ children =>
    (!(ty.getD ("") = "TEST") || children.isEmpty) && allTestLeavesList children

def allTestLeavesList : List HNode → Bool
  | [] => true
  | c :: cs => allTestLeaves c && allTestLeavesList cs

end

/-- Projection of an emitted row to its test name and scope path cells. -/
def projRow (row : JRow) : Option JVal × Option JVal :=
  (lookupField row "test_name", lookupField row "scope_path")

/-- The shape `specRowsNode` pairs take after projection from actual rows. -/
def liftPair (p : String × String) : Option JVal × Option JVal :=
  (some (JVal.str p.1), some (JVal.str p.2))

/- ################################################################
   Theorems
   ################################################################ -/

/-- Claim C7 — counterexample.  Resolving the empty partial configuration
leaves every per-section column spec absent: the claim that after resolution
every optional field, including the per-section column specs, has a
non-absent value is false. -/
theorem resolveConfig_empty_columns_absent :
    (resolveConfig emptyRaw).columns.overview = none ∧
    (resolveConfig emptyRaw).columns.builds = none ∧
    (resolveConfig emptyRaw).columns.tests = none ∧
    (resolveConfig emptyRaw).columns.sessions = none ∧
    (resolveConfig emptyRaw).columns.apps = none :=
  ⟨rfl, rfl, rfl, rfl, rfl⟩

/-- Claim C7 (amended) — config resolution is total on every optional field
except the five per-section column specs (which are passed through
unchanged and may remain absent — witnessed by the structure of
`ReportConfig`, whose only `Option`-valued fields after resolution are the
column specs and the nullable day window), and it is idempotent: resolving
an already-resolved configuration yields the same configuration. -/
theorem resolveConfig_idempotent (raw : RawReportConfig) :
    resolveConfig (rawOfResolved (resolveConfig raw)) = resolveConfig raw :=
  rfl

/-- Claim C10 — column projection with an absent spec or an empty
(zero-length) spec list returns the input row collection unchanged. -/
theorem pickColumns_empty_spec_identity (rows : List JRow) :
    pickColumns rows none = rows ∧ pickColumns rows (some []) = rows :=
  ⟨rfl, rfl⟩

/-- A configuration with two violations of different kinds: test-reporting is
enabled with no explicit IDs while discovery is disabled, and the day window
is the non-positive value `-3`. -/
def c4badConfig : ReportConfig :=
  { credentials :=
      { usernameEnv := defaultUsernameEnv, accessKeyEnv := defaultAccessKeyEnv }
    inputs :=
      { testReportingBuildIds := [], appAutomateBuildIds := [], appCustomIds := []
        discoverRecentBuilds :=
          { enabled := false, maxBuildsPerSource := 20, testReportingProjectIds := [] } }
    testReporting :=
      { enabled := true, fetchAllPages := true, includeHooks := false, testRunQuery := [] }
    appAutomate :=
      { enabled := false, sessionLimit := 25, includeSessionDetails := true
        sessionStatusFilter := "", appListLimit := 10 }
    outputs :=
      { directory := defaultOutputDirectory, baseName := defaultBaseName
        formats := [], markdownMaxRows := 0 }
    filters :=
      { days := some (-3), projects := [], teams := [], people := []
        caseSensitive := false, applyDaysToApps := false }
    columns :=
      { overview := none, builds := none, tests := none, sessions := none, apps := none } }

/-- Claim C4 — counterexample.  `c4badConfig` has two violations (missing
test-reporting IDs with discovery disabled, and day window `-3`), yet
validation fails with an error that lists only the ID violation; the day
violation is checked at a separate later throw site and is absent from the
message, so the claim that a single error lists all violations together is
false. -/
theorem validateConfig_days_violation_not_listed :
    validateConfig c4badConfig =
      Except.error (ConfigError.invalidConfig [msgTrEmpty]) ∧
    daysCheck c4badConfig.filters.days = true ∧
    c4badConfig.filters.days = some (-3) :=
  ⟨rfl, by decide, rfl⟩

/-- Claim C4 (amended) — the ID/source violations (enabled source without
IDs while discovery is disabled; placeholder-looking supplied IDs) are
aggregated and reported together in a single error, each of them listed;
the day-window violation is validated separately afterwards and raised as
its own error, reached only when no ID/source violation exists. -/
theorem validateConfig_aggregation (c : ReportConfig) :
    (trIdsMissing c = true → msgTrEmpty ∈ validationErrors c) ∧
    (aaIdsMissing c = true → msgAaEmpty ∈ validationErrors c) ∧
    (trPlaceholders c ≠ [] →
      msgTrPlaceholder (trPlaceholders c) ∈ validationErrors c) ∧
    (aaPlaceholders c ≠ [] →
      msgAaPlaceholder (aaPlaceholders c) ∈ validationErrors c) ∧
    (validationErrors c ≠ [] →
      validateConfig c = Except.error (ConfigError.invalidConfig (validationErrors c))) ∧
    (validationErrors c = [] → daysCheck c.filters.days = true →
      validateConfig c = Except.error ConfigError.invalidDays) ∧
    (validationErrors c = [] → daysCheck c.filters.days = false →
      validateConfig c = Except.ok ()) := by
  refine ⟨?_, ?_, ?_, ?_, ?_, ?_, ?_⟩
  · intro h
    simp only [trIdsMissing, Bool.and_eq_true, Bool.not_eq_true'] at h
    obtain ⟨⟨h1, h2⟩, h3⟩ := h
    simp [validationErrors, h1, h2, h3]
  · intro h
    simp only [aaIdsMissing, Bool.and_eq_true, Bool.not_eq_true'] at h
    obtain ⟨⟨h1, h2⟩, h3⟩ := h
    simp [validationErrors, h1, h2, h3]
  · intro h
    by_cases he : c.testReporting.enabled
    · have hf : c.inputs.testReportingBuildIds.filter isPlaceholderValue ≠ [] := by
        simpa [trPlaceholders, he] using h
      have hlen : 0 < (c.inputs.testReportingBuildIds.filter isPlaceholderValue).length :=
        List.length_pos.mpr hf
      simp [validationErrors, trPlaceholders, he, hlen]
    · exact absurd (by simp [trPlaceholders, he]) h
  · intro h
    by_cases he : c.appAutomate.enabled
    · have hf : c.inputs.appAutomateBuildIds.filter isPlaceholderValue ≠ [] := by
        simpa [aaPlaceholders, he] using h
      have hlen : 0 < (c.inputs.appAutomateBuildIds.filter isPlaceholderValue).length :=
        List.length_pos.mpr hf
      simp [validationErrors, aaPlaceholders, he, hlen]
    · exact absurd (by simp [aaPlaceholders, he]) h
  · intro h
    have hp : 0 < (validationErrors c).length := List.length_pos.mpr h
    simp [validateConfig, hp]
  · intro h hd
    simp [validateConfig, h, hd]
  · intro h hd
    simp [validateConfig, h, hd]

/-- A configuration with two ID/source violations (both sources enabled with
empty ID lists, discovery disabled) and a valid day window. -/
def c4twoConfig : ReportConfig :=
  { credentials :=
      { usernameEnv := defaultUsernameEnv, accessKeyEnv := defaultAccessKeyEnv }
    inputs :=
      { testReportingBuildIds := [], appAutomateBuildIds := [], appCustomIds := []
        discoverRecentBuilds :=
          { enabled := false, maxBuildsPerSource := 20, testReportingProjectIds := [] } }
    testReporting :=
      { enabled := true, fetchAllPages := true, includeHooks := false, testRunQuery := [] }
    appAutomate :=
      { enabled := true, sessionLimit := 25, includeSessionDetails := true
        sessionStatusFilter := "", appListLimit := 10 }
    outputs :=
      { directory := defaultOutputDirectory, baseName := defaultBaseName
        formats := [], markdownMaxRows := 0 }
    filters :=
      { days := none, projects := [], teams := [], people := []
        caseSensitive := false, applyDaysToApps := false }
    columns :=
      { overview := none, builds := none, tests := none, sessions := none, apps := none } }

/-- Claim C4 — witness for the amended theorem: on `c4twoConfig`, both
missing-ID violations are listed in the one aggregated error. -/
theorem validateConfig_aggregation_witness :
    msgTrEmpty ∈ validationErrors c4twoConfig ∧
    msgAaEmpty ∈ validationErrors c4twoConfig ∧
    validateConfig c4twoConfig =
      Except.error (ConfigError.invalidConfig (validationErrors c4twoConfig)) :=
  ⟨(validateConfig_aggregation c4twoConfig).1 rfl,
   (validateConfig_aggregation c4twoConfig).2.1 rfl,
   (validateConfig_aggregation c4twoConfig).2.2.2.2.1 (by decide)⟩

/-- A concrete date parser for the C3 counterexample: the cell text `t1`
parses to timestamp `999`, everything else is unparseable. -/
def c3parse : String → Option ℚ :=
  fun s => if s == "t1" then some 999 else none

def c3row : JRow := [("started_at", JVal.str "t1")]

def c3keys : List String := ["started_at"]

/-- Claim C3 — counterexample.  With a configured day count of `0` (present:
neither null nor absent) and a row whose single parseable timestamp `999`
is older than the cutoff `1000 - 0*86400000 = 1000`, the predicate still
returns `true` (JS `!days` treats `0` as falsy), contradicting the claimed
"otherwise … if and only if at least one candidate timestamp ≥ cutoff". -/
theorem isWithinDays_zero_days_counterexample :
    isWithinDays c3parse 1000 c3row c3keys (some 0) = true ∧
    timestampsOf c3parse c3row c3keys = [999] ∧
    ¬ ∃ t ∈ timestampsOf c3parse c3row c3keys, (1000 : ℚ) - 0 * 86400000 ≤ t := by
  refine ⟨rfl, rfl, ?_⟩
  intro ⟨t, ht, hle⟩
  have : t = 999 := by
    have : timestampsOf c3parse c3row c3keys = [999] := rfl
    rw [this] at ht
    simpa using ht
  rw [this] at hle
  norm_num at hle

/-- Claim C3 (amended) — the time-window predicate returns `true` when the
day count is null/absent or zero (all JS-falsy); returns `true` when no
candidate field holds a parseable non-empty timestamp, regardless of the
day count; and otherwise (non-zero day count present, at least one usable
timestamp) returns `true` iff at least one candidate timestamp is at least
`now - days*86400` seconds (in milliseconds). -/
theorem isWithinDays_spec (parse : String → Option ℚ) (now : ℚ) (row : JRow)
    (dateKeys : List String) :
    (isWithinDays parse now row dateKeys none = true) ∧
    (isWithinDays parse now row dateKeys (some 0) = true) ∧
    (∀ days, timestampsOf parse row dateKeys = [] →
      isWithinDays parse now row dateKeys days = true) ∧
    (∀ d : ℚ, d ≠ 0 → timestampsOf parse row dateKeys ≠ [] →
      (isWithinDays parse now row dateKeys (some d) = true ↔
        ∃ t ∈ timestampsOf parse row dateKeys, now - d * 86400000 ≤ t)) := by
  refine ⟨rfl, by simp [isWithinDays], ?_, ?_⟩
  · intro days hts
    by_cases hd : days = none ∨ days = some 0
    · simp [isWithinDays, hd]
    · simp [isWithinDays, hd, hts]
  · intro d hd hts
    have hcond : ¬((some d : Option ℚ) = none ∨ (some d : Option ℚ) = some 0) := by
      simp [hd]
    simp [isWithinDays, hcond, List.isEmpty_iff, hts, List.any_eq_true]
    exact fun h => absurd h hd

/-- A parser for the C3 witness: the cell text `old` is a timestamp 10 days
(864000000 ms) before `now = 0`. -/
def c3parse7 : String → Option ℚ :=
  fun s => if s == "old" then some (-864000000) else none

def c3row7 : JRow := [("started_at", JVal.str "old")]

/-- Claim C3 — witness: with `days = 7` a row whose only timestamp is 10 days
old fails the biconditional's right side and is indeed excluded. -/
theorem isWithinDays_spec_witness :
    (isWithinDays c3parse7 0 c3row7 c3keys (some 7) = true ↔
      ∃ t ∈ timestampsOf c3parse7 c3row7 c3keys, (0 : ℚ) - 7 * 86400000 ≤ t) ∧
    isWithinDays c3parse7 0 c3row7 c3keys (some 7) = false :=
  ⟨(isWithinDays_spec c3parse7 0 c3row7 c3keys).2.2.2 7 (by norm_num) (by decide),
   by
    simp [isWithinDays, timestampsOf, c3parse7, c3row7, c3keys, lookupField,
      usableCell, jstr]
    norm_num⟩

/- ### Session pagination lemmas (for C5, C9) -/

/-- The pages of the session loop partition the remote list: concatenating
all responses from offset `o` yields exactly the sessions from `o` on (so no
session is skipped or duplicated). -/
theorem sessionPages_rows {α : Type} (all : List α) (lp o : Nat) :
    ((sessionPages all lp o).map Prod.snd).flatten = all.drop o := by
  by_cases h : ((all.drop o).take (lp + 1)).length = lp + 1
  · rw [sessionPages, dif_pos h]
    rw [List.map_cons, List.flatten_cons, sessionPages_rows all lp (o + (lp + 1))]
    rw [← List.drop_drop, List.take_append_drop]
  · rw [sessionPages, dif_neg h]
    simp only [List.map_cons, List.map_nil, List.flatten_cons, List.flatten_nil,
      List.append_nil]
    apply List.take_of_length_le
    rw [List.length_take, List.length_drop] at h
    rw [List.length_drop]
    omega
termination_by all.length - o
decreasing_by
  rw [List.length_take, List.length_drop] at h
  omega

/-- The loop issues exactly `(remaining sessions) / limit + 1` page requests:
one per full page plus the final short (possibly empty) page. -/
theorem sessionPages_length {α : Type} (all : List α) (lp o : Nat) :
    (sessionPages all lp o).length = (all.length - o) / (lp + 1) + 1 := by
  by_cases h : ((all.drop o).take (lp + 1)).length = lp + 1
  · rw [sessionPages, dif_pos h]
    rw [List.length_cons, sessionPages_length all lp (o + (lp + 1))]
    rw [List.length_take, List.length_drop] at h
    have hb : lp + 1 ≤ all.length - o := by omega
    conv_rhs => rw [Nat.div_eq_sub_div (Nat.succ_pos lp) hb]
    rw [Nat.sub_sub]
  · rw [sessionPages, dif_neg h]
    rw [List.length_take, List.length_drop] at h
    have hlt : all.length - o < lp + 1 := by omega
    simp [Nat.div_eq_of_lt hlt]
termination_by all.length - o
decreasing_by
  rw [List.length_take, List.length_drop] at h
  omega

/-- The requested offsets are `o, o + limit, o + 2*limit, …`. -/
theorem sessionPages_offsets {α : Type} (all : List α) (lp o : Nat) :
    (sessionPages all lp o).map Prod.fst =
      (List.range (sessionPages all lp o).length).map (fun i => o + i * (lp + 1)) := by
  by_cases h : ((all.drop o).take (lp + 1)).length = lp + 1
  · rw [sessionPages, dif_pos h]
    rw [List.map_cons, List.length_cons, sessionPages_offsets all lp (o + (lp + 1))]
    rw [List.range_succ_eq_map, List.map_cons, List.map_map]
    refine congrArg₂ List.cons (by simp) (List.map_congr_left ?_)
    intro a _
    simp only [Function.comp_apply, Nat.succ_eq_add_one]
    ring
  · rw [sessionPages, dif_neg h]
    simp [List.range_succ]
termination_by all.length - o
decreasing_by
  rw [List.length_take, List.length_drop] at h
  omega

/-- A remote build with 25 sessions. -/
def c5sessions : List Nat := List.range 25

/-- Claim C5 — the offset/limit session listing stops exactly on the first
page shorter than the limit: with 25 sessions and limit 25 exactly 2 page
requests are issued (offsets 0 and 25, the second page empty); with limit
10 exactly 3 requests are issued (offsets 0, 10, 20) returning all 25
session rows; and in general the loop returns every session of the remote
list exactly once, in order. -/
theorem appAutomate_session_pagination :
    (sessionOffsets c5sessions 25 = [0, 25] ∧
      (fetchAppAutomateSessionsForBuild c5sessions 25).length = 2) ∧
    (sessionOffsets c5sessions 10 = [0, 10, 20] ∧
      (fetchAppAutomateSessionsForBuild c5sessions 10).length = 3 ∧
      sessionRows c5sessions 10 = c5sessions) ∧
    (∀ (α : Type) (all : List α) (sessionLimit : Int),
      sessionRows all sessionLimit = all) := by
  have hrows : ∀ (α : Type) (all : List α) (sessionLimit : Int),
      sessionRows all sessionLimit = all := by
    intro α all sessionLimit
    rw [sessionRows, fetchAppAutomateSessionsForBuild, sessionPages_rows,
      List.drop_zero]
  refine ⟨⟨?_, ?_⟩, ⟨?_, ?_, hrows Nat c5sessions 10⟩, hrows⟩
  · rw [sessionOffsets, fetchAppAutomateSessionsForBuild, sessionPages_offsets,
      sessionPages_length]
    decide
  · rw [fetchAppAutomateSessionsForBuild, sessionPages_length]
    decide
  · rw [sessionOffsets, fetchAppAutomateSessionsForBuild, sessionPages_offsets,
      sessionPages_length]
    decide
  · rw [fetchAppAutomateSessionsForBuild, sessionPages_length]
    decide

/-- Claim C9 — the session listing clamps a non-positive configured page
limit to `max(1, sessionLimit) ≥ 1` rather than rejecting it, and the loop
requests offsets `0, limit, 2*limit, …` (strictly increasing, one per
iteration), issuing exactly `total/limit + 1` requests — in particular the
short-page stop condition is always reached. -/
theorem sessionLimit_clamp_safety {α : Type} (all : List α) (sessionLimit : Int) :
    1 ≤ (max 1 sessionLimit).toNat ∧
    sessionOffsets all sessionLimit =
      (List.range (all.length / (max 1 sessionLimit).toNat + 1)).map
        (fun i => i * (max 1 sessionLimit).toNat) := by
  have h1 : (1 : Int) ≤ max 1 sessionLimit := le_max_left 1 sessionLimit
  have hL : 1 ≤ (max 1 sessionLimit).toNat := by
    omega
  refine ⟨hL, ?_⟩
  rw [sessionOffsets, fetchAppAutomateSessionsForBuild, sessionPages_offsets,
    sessionPages_length]
  have hsub : (max 1 sessionLimit).toNat - 1 + 1 = (max 1 sessionLimit).toNat := by
    omega
  simp only [hsub, Nat.sub_zero, Nat.zero_add]

/- ### Cursor pagination theorems (C1) -/

/-- Requests issued by the project-discovery loop never exceed the remaining
page budget, whatever the remote does. -/
theorem discProjectLoop_requests_le {ρ : Type}
    (oracle : String → Option (DiscPayload ρ)) :
    ∀ (r : Nat) (cursor : String) (seen : List String),
      (discProjectLoop oracle r cursor seen).1 ≤ r := by
  intro r
  induction r with
  | zero =>
    intro cursor seen
    simp [discProjectLoop]
  | succ n ih =>
    intro cursor seen
    simp only [discProjectLoop]
    cases h : oracle cursor with
    | none => simp
    | some payload =>
      dsimp only
      split
      · exact Nat.succ_le_succ (ih _ _)
      · exact Nat.succ_le_succ (Nat.zero_le n)

/-- Same bound for the per-project build-discovery loop. -/
theorem discBuildLoop_requests_le (oracle : String → Option (DiscPayload String))
    (maxBuilds : Int) :
    ∀ (r : Nat) (cursor : String) (seen : List String) (collected : Nat),
      (discBuildLoop oracle maxBuilds r cursor seen collected).1 ≤ r := by
  intro r
  induction r with
  | zero =>
    intro cursor seen collected
    simp [discBuildLoop]
  | succ n ih =>
    intro cursor seen collected
    simp only [discBuildLoop]
    cases h : oracle cursor with
    | none => simp
    | some payload =>
      dsimp only
      split
      · exact Nat.succ_le_succ (ih _ _ _)
      · exact Nat.succ_le_succ (Nat.zero_le n)

def curA : Option String := some ("A")
def curB : Option String := some ("B")

/-- A test-runs response whose pagination advertises a next page. -/
def trPageTo (next : String) : TRPage :=
  { pagination := some { has_next := some true, next_page := some next } }

/-- A cycling test-runs remote: first page points to cursor `A`, `A` points
to `B`, `B` points back to `A` — the `A→B→A` scenario of the claim. -/
def c1cycOracle : Option String → TRPage :=
  fun cursor =>
    if cursor = curA then trPageTo ("B")
    else if cursor = curB then trPageTo ("A")
    else trPageTo ("A")

/-- Claim C1 — counterexample.  The direct per-build test-runs loop of
`fetchTestReportingData` keeps no seen-cursor set and no page ceiling
(source line 613: `fetchAllPages && hasNext && Boolean(nextPage)`), so on a
remote whose cursor sequence cycles `A→B→A` it issues more than three
requests (here: it is still running after 10), refuting the claim for the
test-runs pagination loop. -/
theorem testRuns_cycling_cursor_exceeds_three_requests :
    3 < testRunsRequests c1cycOracle true 10 none := by
  decide

/-- On the cycling remote every reachable state keeps fetching, so the
test-runs loop consumes any amount of fuel: it never terminates on its own. -/
theorem c1cyc_never_stops :
    ∀ (fuel : Nat) (cursor : Option String),
      cursor = none ∨ cursor = curA ∨ cursor = curB →
      testRunsRequests c1cycOracle true fuel cursor = fuel := by
  intro fuel
  induction fuel with
  | zero =>
    intro cursor _
    rfl
  | succ n ih =>
    intro cursor h
    rcases h with h | h | h <;> subst h
    · show 1 + testRunsRequests c1cycOracle true n curA = n + 1
      rw [ih curA (Or.inr (Or.inl rfl))]
      omega
    · show 1 + testRunsRequests c1cycOracle true n curB = n + 1
      rw [ih curB (Or.inr (Or.inr rfl))]
      omega
    · show 1 + testRunsRequests c1cycOracle true n curA = n + 1
      rw [ih curA (Or.inr (Or.inl rfl))]
      omega

/-- The cycling project-listing remote: the first request's payload points to
cursor `A` with records `[1]`, `A` points to `B` with records `[2]`, `B`
points back to `A` with records `[3]`. -/
def c1discOracle : String → Option (DiscPayload Int) :=
  fun cursor =>
    if cursor = "A" then
      some { records := [2]
             pagination := some { has_next := some true, next_page := curB }
             next_page := none }
    else if cursor = "B" then
      some { records := [3]
             pagination := some { has_next := some true, next_page := curA }
             next_page := none }
    else
      some { records := [1]
             pagination := some { has_next := some true, next_page := curA }
             next_page := none }

/-- Claim C1 (amended) — the guarded discovery loops behave as claimed: the
project-discovery loop issues at most its hard ceiling of requests for any
remote, the per-project build-discovery loop likewise for its own (distinct)
ceiling, and on the `A→B→A` cycling remote project discovery terminates
after exactly three requests with each page's rows ingested once (no
re-ingestion of the repeated page).  The direct per-build test-runs loop,
however, has no cycle guard or ceiling: on the same cycling remote it never
stops, consuming any fuel bound. -/
theorem cursor_pagination_guards :
    (∀ (ρ : Type) (oracle : String → Option (DiscPayload ρ)) (cursor : String)
        (seen : List String),
      (discProjectLoop oracle LIMITS_maxProjectPages cursor seen).1 ≤
        LIMITS_maxProjectPages) ∧
    (∀ (oracle : String → Option (DiscPayload String)) (maxBuilds : Int)
        (cursor : String) (seen : List String) (collected : Nat),
      (discBuildLoop oracle maxBuilds LIMITS_maxBuildPagesPerProject cursor seen
          collected).1 ≤ LIMITS_maxBuildPagesPerProject) ∧
    discoverTestReportingProjectIds c1discOracle = (3, [1, 2, 3]) ∧
    (∀ fuel : Nat, testRunsRequests c1cycOracle true fuel none = fuel) := by
  refine ⟨?_, ?_, ?_, ?_⟩
  · intro ρ oracle cursor seen
    exact discProjectLoop_requests_le oracle _ cursor seen
  · intro oracle maxBuilds cursor seen collected
    exact discBuildLoop_requests_le oracle maxBuilds _ cursor seen collected
  · decide
  · intro fuel
    exact c1cyc_never_stops fuel none (Or.inl rfl)

/- ### Discovery date range (C6) -/

/-- Replace the filter day window of a configuration, leaving every other
field (in particular all discovery settings) unchanged. -/
def cfgWithDays (c : ReportConfig) (d : Option ℚ) : ReportConfig :=
  { c with filters := { c.filters with days := d } }

/-- A resolved configuration with default discovery settings and no filter
day window (used by the C6 theorems). -/
def c6cfgDefault : ReportConfig :=
  { credentials :=
      { usernameEnv := defaultUsernameEnv, accessKeyEnv := defaultAccessKeyEnv }
    inputs :=
      { testReportingBuildIds := [], appAutomateBuildIds := [], appCustomIds := []
        discoverRecentBuilds :=
          { enabled := true, maxBuildsPerSource := 20, testReportingProjectIds := [] } }
    testReporting :=
      { enabled := true, fetchAllPages := true, includeHooks := false, testRunQuery := [] }
    appAutomate :=
      { enabled := true, sessionLimit := 25, includeSessionDetails := true
        sessionStatusFilter := "", appListLimit := 10 }
    outputs :=
      { directory := defaultOutputDirectory, baseName := defaultBaseName
        formats := [], markdownMaxRows := 0 }
    filters :=
      { days := none, projects := [], teams := [], people := []
        caseSensitive := false, applyDaysToApps := false }
    columns :=
      { overview := none, builds := none, tests := none, sessions := none, apps := none } }

/-- The same configuration with `filters.days = 30`. -/
def c6cfgThirty : ReportConfig := cfgWithDays c6cfgDefault (some 30)

/-- Claim C6 — counterexample.  Build discovery computes its date range from
`config.filters?.days ?? 7` (source line 1051), not from a fixed 7-day
window: two configurations identical except for `filters.days` (null
vs. 30) produce different discovery date ranges, refuting the claimed
independence from the general filter day window. -/
theorem discovery_range_depends_on_filter_days :
    c6cfgThirty = cfgWithDays c6cfgDefault (some 30) ∧
    discoverBuildParams c6cfgDefault 0 = (20, (-604800000, 0)) ∧
    discoverBuildParams c6cfgThirty 0 = (20, (-2592000000, 0)) ∧
    discoverBuildParams c6cfgDefault 0 ≠ discoverBuildParams c6cfgThirty 0 := by
  refine ⟨rfl, ?_, ?_, ?_⟩
  · simp only [discoverBuildParams, c6cfgDefault, Option.getD_none, Prod.mk.injEq]
    norm_num
  · simp only [discoverBuildParams, c6cfgThirty, cfgWithDays, c6cfgDefault,
      Option.getD_some, Prod.mk.injEq]
    norm_num
  · simp only [discoverBuildParams, c6cfgThirty, cfgWithDays, c6cfgDefault,
      Option.getD_none, Option.getD_some, ne_eq, Prod.mk.injEq]
    norm_num

/-- Claim C6 (amended) — the discovery date range runs from
`now - days*86400000 ms` to `now` where `days` is the general filter day
window `filters.days` when non-null and `7` otherwise; in particular the
range is injective in (and therefore depends on) the configured day
window. -/
theorem discoverBuildParams_spec (c : ReportConfig) (now : ℚ) :
    discoverBuildParams c now =
      (max 1 c.inputs.discoverRecentBuilds.maxBuildsPerSource,
        (now - (c.filters.days.getD 7) * 86400000, now)) ∧
    (c.filters.days = none →
      discoverBuildParams c now =
        (max 1 c.inputs.discoverRecentBuilds.maxBuildsPerSource,
          (now - 7 * 86400000, now))) ∧
    (∀ d₁ d₂ : ℚ,
      discoverBuildParams (cfgWithDays c (some d₁)) now =
        discoverBuildParams (cfgWithDays c (some d₂)) now → d₁ = d₂) := by
  refine ⟨rfl, ?_, ?_⟩
  · intro h
    simp [discoverBuildParams, h]
  · intro d₁ d₂ h
    simp only [discoverBuildParams, cfgWithDays, Option.getD_some, Prod.mk.injEq,
      and_true, true_and] at h
    have h2 : d₁ * 86400000 = d₂ * 86400000 := by linarith [h]
    exact mul_right_cancel₀ (by norm_num) h2

/-- Claim C6 — witness for the amended theorem at a concrete configuration
and time. -/
theorem discoverBuildParams_spec_witness :
    discoverBuildParams c6cfgDefault 12345 =
      (max 1 c6cfgDefault.inputs.discoverRecentBuilds.maxBuildsPerSource,
        ((12345 : ℚ) - 7 * 86400000, 12345)) ∧
    (5 : ℚ) = 5 :=
  ⟨(discoverBuildParams_spec c6cfgDefault 12345).2.1 rfl,
   (discoverBuildParams_spec c6cfgDefault 12345).2.2 5 5 rfl⟩

/- ### Delimited-text round-trip (C8) -/

/-- Reading a quoted body produced by quote-doubling, up to the closing
quote, recovers the original characters exactly and consumes everything. -/
theorem readQuoted_doubleQuotes (cs : List Char) :
    readQuoted (doubleQuotes cs ++ ['"']) = (cs, []) := by
  induction cs with
  | nil => rfl
  | cons c cs ih =>
    by_cases hc : c = '"'
    · subst hc
      simp only [doubleQuotes, if_pos rfl, List.cons_append]
      simp only [readQuoted]
      simp [ih]
    · simp only [doubleQuotes, if_neg hc, List.cons_append]
      rw [readQuoted.eq_def]
      simp [hc, ih]

/-- Claim C8 — delimited-text rendering round-trips every cell value: for
every string (including ones containing the delimiter, a double quote, and
a newline), parsing the escaped field with a standard delimited-text reader
reproduces the original string exactly and consumes the whole field; values
containing none of the special characters are emitted verbatim. -/
theorem csvEscape_roundTrip (s : String) :
    readField (csvEscape s).data = (s.data, []) ∧
    (s.data.any csvSpecial = false → csvEscape s = s) := by
  constructor
  · by_cases h : s.data.any csvSpecial
    · rw [csvEscape, if_pos h]
      show readField ('"' :: (doubleQuotes s.data ++ ['"'])) = (s.data, [])
      rw [readField, if_pos rfl]
      exact readQuoted_doubleQuotes s.data
    · rw [csvEscape, if_neg h]
      have hall : ∀ x ∈ s.data, csvSpecial x = false := by
        intro x hx
        by_contra hx2
        exact h (List.any_eq_true.mpr ⟨x, hx, by revert hx2; cases csvSpecial x <;> simp⟩)
      cases hd : s.data with
      | nil => simp [readField, hd]
      | cons c t =>
        have hc : ¬ c = '"' := by
          intro hq
          have := hall c (by rw [hd]; exact List.mem_cons_self c t)
          rw [hq] at this
          simp [csvSpecial] at this
        rw [readField, if_neg hc]
        have hp : ∀ x ∈ c :: t, (fun x => !(x = ',' || x = '\n')) x = true := by
          intro x hx
          have := hall x (by rw [hd]; exact hx)
          simp only [csvSpecial] at this
          simp only [Bool.not_eq_true']
          cases h1 : (decide (x = ',') || decide (x = '\n')) with
          | false => rfl
          | true =>
            exfalso
            rcases Bool.or_eq_true_iff.mp h1 with h2 | h2
            · rw [of_decide_eq_true h2] at this
              simp at this
            · rw [of_decide_eq_true h2] at this
              simp at this
        rw [List.takeWhile_eq_self_iff.mpr hp, List.dropWhile_eq_nil_iff.mpr hp]
  · intro h
    rw [csvEscape, if_neg (by rw [h]; exact Bool.false_ne_true)]

def c8sample : String := "a,\"b\"\nc"
def c8plain : String := "plain"

/-- Claim C8 — witness: the round-trip theorem applied to a value containing
a comma, a double quote and a newline, and the verbatim clause applied to a
value with none of them. -/
theorem csvEscape_roundTrip_witness :
    readField (csvEscape c8sample).data = (c8sample.data, []) ∧
    csvEscape c8plain = c8plain :=
  ⟨(csvEscape_roundTrip c8sample).1, (csvEscape_roundTrip c8plain).2 (by decide)⟩

/- ### Hierarchy flattening (C2) -/

/-- Projecting the row literal built by `walk` recovers the node's display
name and joined parent path. -/
theorem projRow_mkTestRow (bid bname : String) (bnum : JVal) (rd : JVal)
    (rdn : String) (ty dn : String) (details : JVal) (path : List String) :
    projRow (mkTestRow bid bname bnum rd rdn ty dn details path) =
      (some (JVal.str dn), some (JVal.str (String.intercalate scopeSep path))) :=
  rfl

mutual

/-- With hook inclusion off, walking a node emits exactly the spec-side
`(name, scope path)` pairs, in order. -/
theorem walkNode_proj (bid bname : String) (bnum : JVal) (rd : JVal)
    (rdn : String) (n : HNode) (path : List String) :
    (walkNode bid bname bnum false rd rdn n path).map projRow =
      (specRowsNode path n).map liftPair := by
  cases n with
  | mk dn ty d children =>
    simp only [walkNode, specRowsNode, Bool.false_and, Bool.or_false]
    rw [List.map_append, List.map_append]
    refine congrArg₂ (· ++ ·) ?_
      (walkNodes_proj bid bname bnum rd rdn children _)
    by_cases hty : ty.getD ("") = "TEST"
    · by_cases hdn : dn.getD ("") = ""
      · rw [if_neg, if_neg]
        · rfl
        · exact fun hand => hand.2 hdn
        · simp [hty, hdn]
      · rw [if_pos, if_pos]
        · rw [List.map_cons, List.map_nil, projRow_mkTestRow]
          rfl
        · exact ⟨hty, hdn⟩
        · simp [hty, hdn]
    · rw [if_neg, if_neg]
      · rfl
      · exact fun hand => hty hand.1
      · simp [hty]

theorem walkNodes_proj (bid bname : String) (bnum : JVal) (rd : JVal)
    (rdn : String) (l : List HNode) (path : List String) :
    (walkNodes bid bname bnum false rd rdn l path).map projRow =
      (specRowsNodes path l).map liftPair := by
  cases l with
  | nil => rfl
  | cons c cs =>
    simp only [walkNodes, specRowsNodes]
    rw [List.map_append, List.map_append,
      walkNode_proj bid bname bnum rd rdn c path,
      walkNodes_proj bid bname bnum rd rdn cs path]

end

mutual

/-- On a tree whose TEST-typed nodes are all leaves, the spec-side pair list
has exactly one entry per leaf TEST node with a non-empty display name. -/
theorem specRowsNode_length (n : HNode) :
    ∀ path, allTestLeaves n = true → (specRowsNode path n).length = leafTestCount n := by
  cases n with
  | mk dn ty d children =>
    intro path h
    simp only [allTestLeaves, Bool.and_eq_true, Bool.or_eq_true] at h
    obtain ⟨h1, h2⟩ := h
    simp only [specRowsNode, leafTestCount, List.length_append]
    rw [specRowsNodes_length children _ h2]
    refine congrArg₂ (· + ·) ?_ rfl
    by_cases hty : ty.getD ("") = "TEST"
    · have hemp : children.isEmpty = true := by
        rcases h1 with h1 | h1
        · rw [Bool.not_eq_true'] at h1
          exact absurd hty (by simpa using h1)
        · exact h1
      by_cases hdn : dn.getD ("") = ""
      · rw [if_neg (fun hand => hand.2 hdn), if_neg (fun hand => hand.2.2 hdn)]
        rfl
      · rw [if_pos ⟨hty, hdn⟩, if_pos ⟨hemp, hty, hdn⟩]
        rfl
    · rw [if_neg (fun hand => hty hand.1), if_neg (fun hand => hty hand.2.1)]
      rfl

theorem specRowsNodes_length (l : List HNode) :
    ∀ path, allTestLeavesList l = true →
      (specRowsNodes path l).length = leafTestCountList l := by
  cases l with
  | nil => intro path h; rfl
  | cons c cs =>
    intro path h
    simp only [allTestLeavesList, Bool.and_eq_true] at h
    simp only [specRowsNodes, leafTestCountList, List.length_append]
    rw [specRowsNode_length c path h.1, specRowsNodes_length cs path h.2]

end

/-- The whole-hierarchy spec pairs are the root-list walk from the empty
path. -/
theorem specRows_eq_specRowsNodes (hierarchy : List HNode) :
    specRows hierarchy = specRowsNodes [] hierarchy := by
  induction hierarchy with
  | nil => rfl
  | cons c cs ih =>
    simp only [specRows, List.map_cons, List.flatten_cons, specRowsNodes]
    rw [← ih]
    rfl

/-- Claim C2 — on every hierarchy whose TEST-typed nodes are all leaves,
flattening with hook inclusion off yields exactly one row per leaf TEST node
with a non-empty display name (HOOK nodes and empty-named nodes contribute
none), and each row's `test_name`/`scope_path` cells are the node's display
name and the join of its strict ancestors' non-empty display names (root
down, excluding the leaf's own name), in pre-order. -/
theorem flattenTestHierarchy_spec (bid bname : String) (bnum : JVal)
    (hierarchy : List HNode) (h : allTestLeavesList hierarchy = true) :
    (flattenTestHierarchy bid bname bnum hierarchy false).map projRow =
      (specRows hierarchy).map liftPair ∧
    (flattenTestHierarchy bid bname bnum hierarchy false).length =
      leafTestCountList hierarchy := by
  have hproj : (flattenTestHierarchy bid bname bnum hierarchy false).map projRow =
      (specRows hierarchy).map liftPair := by
    rw [flattenTestHierarchy, List.map_flatten, List.map_map, specRows,
      List.map_flatten, List.map_map]
    refine congrArg List.flatten (List.map_congr_left ?_)
    intro root _
    exact walkNode_proj bid bname bnum _ _ root []
  refine ⟨hproj, ?_⟩
  have hlen : (flattenTestHierarchy bid bname bnum hierarchy false).length =
      (specRows hierarchy).length := by
    have := congrArg List.length hproj
    rwa [List.length_map, List.length_map] at this
  rw [hlen, specRows_eq_specRowsNodes]
  exact specRowsNodes_length hierarchy [] h

/-- A concrete hierarchy for the C2 witness: a root suite containing a leaf
TEST, a leaf HOOK, an empty-named leaf TEST, and a nested suite with another
leaf TEST. -/
def c2tree : List HNode :=
  [HNode.mk (some ("suite")) (some ("DESCRIBE")) none
    [HNode.mk (some ("t1")) (some ("TEST")) none [],
     HNode.mk (some ("h1")) (some ("HOOK")) none [],
     HNode.mk (some ("")) (some ("TEST")) none [],
     HNode.mk (some ("inner")) (some ("DESCRIBE")) none
       [HNode.mk (some ("t2")) (some ("TEST")) none []]]]

/-- Claim C2 — witness: the flattening theorem applied to `c2tree` (two
qualifying leaf TEST nodes among HOOK and empty-named leaves), together with
the concretely evaluated expected pairs. -/
theorem flattenTestHierarchy_spec_witness :
    ((flattenTestHierarchy ("b1") ("build-1") (JVal.num 1) c2tree false).map projRow =
        (specRows c2tree).map liftPair ∧
      (flattenTestHierarchy ("b1") ("build-1") (JVal.num 1) c2tree false).length =
        leafTestCountList c2tree) ∧
    leafTestCountList c2tree = 2 ∧
    specRows c2tree = [("t1", "suite"), ("t2", "suite > inner")] :=
  ⟨flattenTestHierarchy_spec ("b1") ("build-1") (JVal.num 1) c2tree rfl,
   rfl, rfl⟩

end BStackReport
